import Mathlib

/-!
Shallow embedding of `src/main.py` (Rapid292/ai-ocr): a four-step document
pipeline (OCR submission → text combination → LLM gateway call → response
parsing).  Python strings are modelled as Lean `String` (slicing is done on
`String.data`, the list of code points), bytes as `List Nat` (each < 256),
JSON values as the inductive `Json`, and raised exceptions as `Except`
errors.  The external Google Vision / Portkey calls are parameters; the
text extractor, response parser and orchestration are translated from the
source.
-/

/-- JSON values as produced by Python's `json.loads`.  Numbers are kept as a
decimal mantissa/exponent pair (value = mantissa * 10 ^ exponent), so `1`
is `num 1 0` and `1.5` is `num 15 (-1)`; Python's non-finite constants
`NaN` / `Infinity` / `-Infinity` (accepted by `json.loads` by default) get
their own constructors.  Objects keep insertion order with later duplicate
keys overwriting in place, matching `dict` semantics. -/
inductive Json where
  | null
  | bool (b : Bool)
  | num (mantissa exponent : Int)
  | nan
  | inf (neg : Bool)
  | str (s : String)
  | arr (elems : List Json)
  | obj (fields : List (String × Json))

/-- Left and right curly brace characters (written by code point). -/
def lbrace : Char := Char.ofNat 123

/-- Right curly brace character. -/
def rbrace : Char := Char.ofNat 125

/-- JSON insignificant whitespace, as accepted by Python's `json` scanner. -/
def jsonWsChar (c : Char) : Bool := c = ' ' || c = '\t' || c = '\n' || c = '\r'

/-- Drop leading JSON whitespace. -/
def skipJsonWs : List Char → List Char
  | [] => []
  | c :: cs => if jsonWsChar c then skipJsonWs cs else c :: cs

/-- Decimal digit test. -/
def isDigitChar (c : Char) : Bool := '0' ≤ c && c ≤ '9'

/-- Split off a maximal run of leading decimal digits. -/
def takeDigits : List Char → List Char × List Char
  | [] => ([], [])
  | c :: cs =>
    if isDigitChar c then
      let (ds, rest) := takeDigits cs
      (c :: ds, rest)
    else ([], c :: cs)

/-- Numeric value of a digit run. -/
def digitsVal (ds : List Char) : Nat := ds.foldl (fun a c => a * 10 + (c.toNat - 48)) 0

/-- Value of a hex digit, if `c` is one. -/
def hexDigitVal (c : Char) : Option Nat :=
  if '0' ≤ c && c ≤ '9' then some (c.toNat - 48)
  else if 'a' ≤ c && c ≤ 'f' then some (c.toNat - 87)
  else if 'A' ≤ c && c ≤ 'F' then some (c.toNat - 55)
  else none

/-- Read four hex digits (the `XXXX` of a `\uXXXX` escape). -/
def parseHex4 : List Char → Option (Nat × List Char)
  | a :: b :: c :: d :: rest =>
    match hexDigitVal a, hexDigitVal b, hexDigitVal c, hexDigitVal d with
    | some x, some y, some z, some w => some (((x * 16 + y) * 16 + z) * 16 + w, rest)
    | _, _, _, _ => none
  | _ => none

/-- Body of a JSON string literal, after the opening quote; `acc` holds the
characters read so far, reversed.  Mirrors Python's strict scanner: raw
control characters and bad escapes are errors.  (Python tolerates lone
surrogate escapes, which Lean's `Char` cannot represent; they are errors
here — no data in this repository exercises them.) -/
def parseStrGo : Nat → List Char → List Char → Except String (String × List Char)
  | 0, _, _ => .error "Unterminated string"
  | fuel + 1, acc, cs =>
    match cs with
    | [] => .error "Unterminated string"
    | c :: rest =>
      if c = '\"' then .ok (String.mk acc.reverse, rest)
      else if c = '\\' then
        match rest with
        | [] => .error "Unterminated string"
        | e :: r2 =>
          if e = '\"' then parseStrGo fuel ('\"' :: acc) r2
          else if e = '\\' then parseStrGo fuel ('\\' :: acc) r2
          else if e = '/' then parseStrGo fuel ('/' :: acc) r2
          else if e = 'b' then parseStrGo fuel (Char.ofNat 8 :: acc) r2
          else if e = 'f' then parseStrGo fuel (Char.ofNat 12 :: acc) r2
          else if e = 'n' then parseStrGo fuel ('\n' :: acc) r2
          else if e = 'r' then parseStrGo fuel ('\r' :: acc) r2
          else if e = 't' then parseStrGo fuel ('\t' :: acc) r2
          else if e = 'u' then
            match parseHex4 r2 with
            | none => .error "Invalid \\uXXXX escape"
            | some (n, r3) =>
              if 0xD800 ≤ n && n < 0xDC00 then
                match r3 with
                | '\\' :: 'u' :: r4 =>
                  match parseHex4 r4 with
                  | some (m, r5) =>
                    if 0xDC00 ≤ m && m < 0xE000 then
                      parseStrGo fuel
                        (Char.ofNat (0x10000 + (n - 0xD800) * 0x400 + (m - 0xDC00)) :: acc) r5
                    else .error "Unpaired surrogate escape"
                  | none => .error "Invalid \\uXXXX escape"
                | _ => .error "Unpaired surrogate escape"
              else if 0xDC00 ≤ n && n < 0xE000 then .error "Unpaired surrogate escape"
              else parseStrGo fuel (Char.ofNat n :: acc) r2
          else .error "Invalid \\escape"
      else if c.toNat < 0x20 then .error "Invalid control character"
      else parseStrGo fuel (c :: acc) rest

/-- Fractional part of a number: consumed only when a full `.digits` group is
present, exactly like the `(\.\d+)?` group of Python's number regex. -/
def parseFrac : List Char → List Char × List Char
  | '.' :: cs =>
    match takeDigits cs with
    | ([], _) => ([], '.' :: cs)
    | (ds, rest) => (ds, rest)
  | cs => ([], cs)

/-- Exponent part of a number: consumed only when a full `[eE][+-]?digits`
group is present.  Returns (negative?, value) when consumed. -/
def parseExpPart : List Char → Option (Bool × Nat) × List Char
  | [] => (none, [])
  | e :: cs =>
    if e = 'e' || e = 'E' then
      let (sgn, cs2) : Bool × List Char :=
        match cs with
        | '+' :: t => (false, t)
        | '-' :: t => (true, t)
        | t => (false, t)
      match takeDigits cs2 with
      | ([], _) => (none, e :: cs)
      | (ds, rest) => (some (sgn, digitsVal ds), rest)
    else (none, e :: cs)

/-- Assemble a parsed number from its sign, integer digits and what follows. -/
def finishNum (neg : Bool) (intDs : List Char) (cs : List Char) :
    Except String (Json × List Char) :=
  let (fracDs, r1) := parseFrac cs
  let (expPart, r2) := parseExpPart r1
  let mantNat := digitsVal (intDs ++ fracDs)
  let mant : Int := if neg then -(mantNat : Int) else (mantNat : Int)
  let e0 : Int :=
    match expPart with
    | some (true, e) => -(e : Int)
    | some (false, e) => (e : Int)
    | none => 0
  .ok (Json.num mant (e0 - (fracDs.length : Int)), r2)

/-- Number token per the JSON grammar `-?(0|[1-9]\d*)(\.\d+)?([eE][+-]?\d+)?`;
`cs` starts at the first digit (any leading `-` was already consumed and is
recorded in `neg`).  A leading `0` takes no further integer digits, so the
scanner stops exactly where Python's regex does. -/
def parseNum (neg : Bool) (cs : List Char) : Except String (Json × List Char) :=
  match cs with
  | '0' :: rest => finishNum neg ['0'] rest
  | _ =>
    match takeDigits cs with
    | ([], _) => .error "Expecting value"
    | (ds, rest) => finishNum neg ds rest

/-- Literal keyword helper: `expectLit "ull" cs Json.null` accepts `ull`. -/
def expectLit (lit : String) (cs : List Char) (v : Json) : Except String (Json × List Char) :=
  if lit.data.isPrefixOf cs then .ok (v, cs.drop lit.data.length) else .error "Expecting value"

/-- Insert a key into an object under construction, Python-`dict` style: an
existing key keeps its position but its value is overwritten. -/
def insertField : List (String × Json) → String → Json → List (String × Json)
  | [], k, v => [(k, v)]
  | (k', v') :: rest, k, v =>
    if k' = k then (k, v) :: rest else (k', v') :: insertField rest k v

mutual

/-- Recursive-descent JSON value scanner (fuel-indexed; `json_loads` supplies
fuel strictly larger than the scanner can consume). -/
def parseValue : Nat → List Char → Except String (Json × List Char)
  | 0, _ => .error "Expecting value"
  | fuel + 1, cs =>
    match cs with
    | [] => .error "Expecting value"
    | c :: rest =>
      if c = lbrace then
        let cs1 := skipJsonWs rest
        match cs1 with
        | c1 :: r1 => if c1 = rbrace then .ok (Json.obj [], r1) else parseMembers fuel [] cs1
        | [] => .error "Expecting property name enclosed in double quotes"
      else if c = '[' then
        let cs1 := skipJsonWs rest
        match cs1 with
        | c1 :: r1 => if c1 = ']' then .ok (Json.arr [], r1) else parseElems fuel [] cs1
        | [] => .error "Expecting value"
      else if c = '\"' then
        match parseStrGo (rest.length + 1) [] rest with
        | .ok (s, r) => .ok (Json.str s, r)
        | .error e => .error e
      else if c = 't' then expectLit "rue" rest (Json.bool true)
      else if c = 'f' then expectLit "alse" rest (Json.bool false)
      else if c = 'n' then expectLit "ull" rest Json.null
      else if c = 'N' then expectLit "aN" rest Json.nan
      else if c = 'I' then expectLit "nfinity" rest (Json.inf false)
      else if c = '-' then
        match rest with
        | 'I' :: r2 => expectLit "nfinity" r2 (Json.inf true)
        | _ => parseNum true rest
      else if isDigitChar c then parseNum false cs
      else .error "Expecting value"

/-- Members of an object, starting at (whitespace before) the first key. -/
def parseMembers : Nat → List (String × Json) → List Char → Except String (Json × List Char)
  | 0, _, _ => .error "Expecting value"
  | fuel + 1, acc, cs =>
    match skipJsonWs cs with
    | '\"' :: rest =>
      match parseStrGo (rest.length + 1) [] rest with
      | .error e => .error e
      | .ok (key, r1) =>
        match skipJsonWs r1 with
        | ':' :: r2 =>
          match parseValue fuel (skipJsonWs r2) with
          | .error e => .error e
          | .ok (v, r3) =>
            let acc2 := insertField acc key v
            match skipJsonWs r3 with
            | ',' :: r4 => parseMembers fuel acc2 r4
            | c :: r4 =>
              if c = rbrace then .ok (Json.obj acc2, r4) else .error "Expecting , delimiter"
            | [] => .error "Expecting , delimiter"
        | _ => .error "Expecting : delimiter"
    | _ => .error "Expecting property name enclosed in double quotes"

/-- Elements of an array, starting at (whitespace before) the first element. -/
def parseElems : Nat → List Json → List Char → Except String (Json × List Char)
  | 0, _, _ => .error "Expecting value"
  | fuel + 1, acc, cs =>
    match parseValue fuel (skipJsonWs cs) with
    | .error e => .error e
    | .ok (v, r1) =>
      match skipJsonWs r1 with
      | ',' :: r2 => parseElems fuel (acc ++ [v]) r2
      | c :: r2 => if c = ']' then .ok (Json.arr (acc ++ [v]), r2) else .error "Expecting , delimiter"
      | [] => .error "Expecting , delimiter"

end

/-- Error raised by `json.loads`: Python's `json.JSONDecodeError`, which keeps
the offending document in its `doc` attribute. -/
structure JSONDecodeError where
  msg : String
  doc : String
deriving DecidableEq, Repr

/-- Embedding of Python's `json.loads`: scan one value, then require only
whitespace to remain (otherwise "Extra data").  On failure the error carries
the whole input as `doc`. -/
def json_loads (s : String) : Except JSONDecodeError Json :=
  match parseValue (2 * s.data.length + 8) (skipJsonWs s.data) with
  | .error m => .error ⟨m, s⟩
  | .ok (v, rest) =>
    match skipJsonWs rest with
    | [] => .ok v
    | _ => .error ⟨"Extra data", s⟩

/-- Error raised anywhere in the pipeline; models the Python exception that
propagates (the `except ValidationError` handlers in the source never match
these, so every one of them reaches the caller unhandled). -/
inductive PipelineError where
  | unicodeDecodeError (msg : String)
  | jsonDecodeError (e : JSONDecodeError)
  | keyError (key : String)
  | typeError (msg : String)
  | indexError (msg : String)
  | visionError (msg : String)
  | gatewayError (msg : String)

/-- Continuation byte test for UTF-8. -/
def contByte (b : Nat) : Bool := 0x80 ≤ b && b < 0xC0

/-- Strict UTF-8 decoder (fuel-indexed), matching `bytes.decode("utf-8")`:
rejects stray continuation bytes, overlong encodings, surrogates, code
points beyond U+10FFFF and truncated sequences. -/
def utf8DecodeGo : Nat → List Nat → Option (List Char)
  | 0, _ => none
  | _, [] => some []
  | fuel + 1, b :: bs =>
    if b < 0x80 then
      (utf8DecodeGo fuel bs).map (fun cs => Char.ofNat b :: cs)
    else if b < 0xC2 then none
    else if b < 0xE0 then
      match bs with
      | b1 :: bs1 =>
        if contByte b1 then
          (utf8DecodeGo fuel bs1).map (fun cs => Char.ofNat ((b - 0xC0) * 0x40 + (b1 - 0x80)) :: cs)
        else none
      | [] => none
    else if b < 0xF0 then
      match bs with
      | b1 :: b2 :: bs2 =>
        if contByte b1 && contByte b2 then
          let cp := (b - 0xE0) * 0x1000 + (b1 - 0x80) * 0x40 + (b2 - 0x80)
          if cp < 0x800 then none
          else if 0xD800 ≤ cp && cp < 0xE000 then none
          else (utf8DecodeGo fuel bs2).map (fun cs => Char.ofNat cp :: cs)
        else none
      | _ => none
    else if b < 0xF5 then
      match bs with
      | b1 :: b2 :: b3 :: bs3 =>
        if contByte b1 && contByte b2 && contByte b3 then
          let cp := (b - 0xF0) * 0x40000 + (b1 - 0x80) * 0x1000 + (b2 - 0x80) * 0x40 + (b3 - 0x80)
          if cp < 0x10000 || 0x10FFFF < cp then none
          else (utf8DecodeGo fuel bs3).map (fun cs => Char.ofNat cp :: cs)
        else none
      | _ => none
    else none

/-- Embedding of `bytes.decode("utf-8")` on a blob's raw bytes (main.py line
64); failure raises `UnicodeDecodeError`, which nothing in the source
catches. -/
def utf8DecodeStr (bytes : List Nat) : Except PipelineError String :=
  match utf8DecodeGo (bytes.length + 1) bytes with
  | some cs => .ok (String.mk cs)
  | none => .error (.unicodeDecodeError "utf-8 codec cannot decode")

/-- UTF-8 encoding of one character (used to build concrete blob payloads). -/
def utf8EncodeChar (c : Char) : List Nat :=
  let n := c.toNat
  if n < 0x80 then [n]
  else if n < 0x800 then [0xC0 + n / 0x40, 0x80 + n % 0x40]
  else if n < 0x10000 then [0xE0 + n / 0x1000, 0x80 + (n / 0x40) % 0x40, 0x80 + n % 0x40]
  else [0xF0 + n / 0x40000, 0x80 + (n / 0x1000) % 0x40, 0x80 + (n / 0x40) % 0x40, 0x80 + n % 0x40]

/-- UTF-8 encoding of a string. -/
def utf8Encode (s : String) : List Nat := (s.data.map utf8EncodeChar).flatten

/-- An OCR Output Blob: a `google.cloud.storage.Blob` as the source uses it —
a name plus the bytes `download_as_bytes()` returns. -/
structure Blob where
  name : String
  bytes : List Nat

/-- Python `value[key]` for a string key on a decoded JSON value: dict lookup
with `KeyError` on a missing key, `TypeError` on non-dict values. -/
def lookupField : List (String × Json) → String → Option Json
  | [], _ => none
  | (k, v) :: rest, key => if k = key then some v else lookupField rest key

def pyGetItem (v : Json) (key : String) : Except PipelineError Json :=
  match v with
  | .obj fields =>
    match lookupField fields key with
    | some x => .ok x
    | none => .error (.keyError key)
  | .arr _ => .error (.typeError "list indices must be integers or slices, not str")
  | .str _ => .error (.typeError "string indices must be integers")
  | _ => .error (.typeError "object is not subscriptable")

/-- Python `for x in value` on a decoded JSON value: lists yield elements,
dicts yield their keys, strings their characters; other values raise
`TypeError`. -/
def pyIter (v : Json) : Except PipelineError (List Json) :=
  match v with
  | .arr elems => .ok elems
  | .obj fields => .ok (fields.map (fun kv => Json.str kv.1))
  | .str s => .ok (s.data.map (fun c => Json.str (String.mk [c])))
  | _ => .error (.typeError "object is not iterable")

/-- The inner page loop of `TextExtractor.get_combined_extract_text`
(main.py lines 67-71): for each page response take
`page_response["fullTextAnnotation"]`, then its `"text"`, and append
`text + "\n"` to the accumulator; any `KeyError` / `TypeError` propagates
(the `except ValidationError` on line 73 can never match them). -/
def extractPages (combined_text : String) : List Json → Except PipelineError String
  | [] => .ok combined_text
  | page_response :: rest =>
    match pyGetItem page_response "fullTextAnnotation" with
    | .error e => .error e
    | .ok anno =>
      match pyGetItem anno "text" with
      | .error e => .error e
      | .ok t =>
        match t with
        | .str txt => extractPages (combined_text ++ (txt ++ "\n")) rest
        | _ => .error (.typeError "can only concatenate str to str")

/-- One iteration of the blob loop (main.py lines 63-71): download and decode
the blob's bytes, `json.loads` them, and run the page loop over
`response["responses"]`. -/
def processBlob (combined_text : String) (blob : Blob) : Except PipelineError String :=
  match utf8DecodeStr blob.bytes with
  | .error e => .error e
  | .ok json_string =>
    match json_loads json_string with
    | .error e => .error (.jsonDecodeError e)
    | .ok response =>
      match pyGetItem response "responses" with
      | .error e => .error e
      | .ok resp =>
        match pyIter resp with
        | .error e => .error e
        | .ok pages => extractPages combined_text pages

/-- The blob loop with its accumulator. -/
def combineGo (combined_text : String) : List Blob → Except PipelineError String
  | [] => .ok combined_text
  | blob :: rest =>
    match processBlob combined_text blob with
    | .error e => .error e
    | .ok acc2 => combineGo acc2 rest

/-- Embedding of `TextExtractor.get_combined_extract_text` (main.py lines
60-78): start from the empty accumulator and fold the blob loop.  A raised
exception is an `Except.error`; in that case no string is returned. -/
def get_combined_extract_text (blob_list : List Blob) : Except PipelineError String :=
  combineGo "" blob_list

/-- Python `s.startswith(p)` (code-point prefix test). -/
def pyStartswith (s p : String) : Bool := p.data.isPrefixOf s.data

/-- Python `s.endswith(p)` (code-point suffix test). -/
def pyEndswith (s p : String) : Bool := p.data.isSuffixOf s.data

/-- Python slice `s[a:-b]` for natural `a`, `b`: the code points from index
`a` up to (length - b), exclusive. -/
def pySliceDropEnds (s : String) (a b : Nat) : String :=
  String.mk ((s.data.take (s.data.length - b)).drop a)

/-- Characters Python's `str.strip()` removes.  Python strips everything
`str.isspace()` accepts; the set here covers the ASCII/Latin-1 whitespace
that can occur in this pipeline's data. -/
def pySpace (c : Char) : Bool :=
  c = ' ' || c = '\t' || c = '\n' || c = '\r' ||
  c = Char.ofNat 0x0b || c = Char.ofNat 0x0c ||
  c = Char.ofNat 0x1c || c = Char.ofNat 0x1d || c = Char.ofNat 0x1e ||
  c = Char.ofNat 0x1f || c = Char.ofNat 0x85 || c = Char.ofNat 0xa0

/-- Python `s.strip()`: drop leading and trailing whitespace. -/
def pyStrip (s : String) : String :=
  String.mk (((s.data.dropWhile pySpace).reverse.dropWhile pySpace).reverse)

/-- The fence-stripping step of `DocumentProcessor.parse_and_validate_response`
(main.py lines 125-126): only when the content both starts with the
open-fence marker and ends with the close-fence marker is
`content[7:-3].strip()` taken; otherwise the content is left unmodified. -/
def fence_strip (content : String) : String :=
  if pyStartswith content "```json" && pyEndswith content "```" then
    pyStrip (pySliceDropEnds content 7 3)
  else content

/-- Portkey completion result shape: `choices[0].message.content`
(main.py line 122). -/
structure Message where
  content : String

structure Choice where
  message : Message

structure CompletionResponse where
  choices : List Choice

/-- Embedding of `DocumentProcessor.parse_and_validate_response` (main.py
lines 120-134): read `choices[0]` (IndexError when the list is empty),
strip a matched json fence pair, and `json.loads` the remainder.  The
source's `except ValidationError` never matches the `JSONDecodeError` that
`json.loads` raises, so a parse failure propagates to the caller, carrying
the offending document in its `doc` attribute. -/
def parse_and_validate_response (response : CompletionResponse) : Except PipelineError Json :=
  match response.choices with
  | [] => .error (.indexError "list index out of range")
  | choice :: _ =>
    let content := fence_strip choice.message.content
    match json_loads content with
    | .ok extracted_json => .ok extracted_json
    | .error e => .error (.jsonDecodeError e)

/-- A completion response whose single choice carries `c`. -/
def mkResp (c : String) : CompletionResponse := ⟨[⟨⟨c⟩⟩]⟩

/-- The two external collaborators of `DocumentProcessor`, as the orchestrator
sees them: `GoogleVisionClient.async_detect_document` takes the source and
destination URIs and yields the output blob list (or raises: operation
timeout, SDK errors), and `PortkeyClient.send_to_portkey` takes the prompt
id and text and yields the completion (or re-raises the gateway error,
main.py lines 92-98). -/
structure ExternalClients where
  async_detect_document : String → String → Except PipelineError (List Blob)
  send_to_portkey : String → String → Except PipelineError CompletionResponse

/-- Embedding of `DocumentProcessor.process_document` (main.py lines 107-118):
the four steps in sequence, each feeding the next, any raised error
propagating unchanged. -/
def process_document (cl : ExternalClients)
    (gcs_source_uri gcs_destination_uri prompt_id : String) : Except PipelineError Json :=
  match cl.async_detect_document gcs_source_uri gcs_destination_uri with
  | .error e => .error e
  | .ok blob_list =>
    match get_combined_extract_text blob_list with
    | .error e => .error e
    | .ok combined_text =>
      match cl.send_to_portkey prompt_id combined_text with
      | .error e => .error e
      | .ok response => parse_and_validate_response response

/-- Labels for the four pipeline steps. -/
inductive Step where
  | ocr
  | extract
  | gateway
  | parse
deriving DecidableEq, Repr

/-- The full pipeline order. -/
def pipelineSteps : List Step := [Step.ocr, Step.extract, Step.gateway, Step.parse]

/-- `process_document` instrumented with the list of steps that actually
start, in the order they start: the observable execution trace of
main.py lines 107-118. -/
def process_document_trace (cl : ExternalClients)
    (gcs_source_uri gcs_destination_uri prompt_id : String) :
    List Step × Except PipelineError Json :=
  match cl.async_detect_document gcs_source_uri gcs_destination_uri with
  | .error e => ([Step.ocr], .error e)
  | .ok blob_list =>
    match get_combined_extract_text blob_list with
    | .error e => ([Step.ocr, Step.extract], .error e)
    | .ok combined_text =>
      match cl.send_to_portkey prompt_id combined_text with
      | .error e => ([Step.ocr, Step.extract, Step.gateway], .error e)
      | .ok response =>
        match parse_and_validate_response response with
        | .error e => (pipelineSteps, .error e)
        | .ok extracted_json => (pipelineSteps, .ok extracted_json)

/-- The four required settings of main.py lines 152-155, each `none` when the
environment variable is absent (`os.getenv` returns `None`). -/
structure Env where
  output_document_path : Option String
  input_document_path : Option String
  portkey_prompt_id : Option String
  portkey_api_key : Option String

/-- Observable behaviour of one run of `main` (main.py lines 151-176).
`configErrorReported` records whether a configuration error was reported
before the pipeline; `pipelineArgs` the (source, destination, prompt)
values `process_document` was invoked with, `none` if it never ran;
`clientApiKey` the credential handed to the Portkey client;
`printedResult` the JSON written to stdout, if any; `exitCode` the process
exit status. -/
structure MainOutcome where
  configErrorReported : Bool
  pipelineArgs : Option (Option String × Option String × Option String)
  clientApiKey : Option String
  printedResult : Option Json
  errorLogged : Bool
  exitCode : Nat

/-- Embedding of `main` (main.py lines 151-176).  The four settings are read
and passed on without any validation — the source contains no check and no
configuration-error report, so the pipeline is attempted whatever the
environment holds.  `pd` stands for `processor.process_document` applied to
the three (possibly absent) values; on success the result is pretty-printed
to stdout and `main` returns, on failure the `except` block on lines
175-176 logs the error and `main` still returns normally — in both cases
the process terminates with exit code 0. -/
def main_run (pd : Option String → Option String → Option String → Except PipelineError Json)
    (env : Env) : MainOutcome :=
  let gcs_destination_uri := env.output_document_path
  let gcs_source_uri := env.input_document_path
  let portkey_prompt_id := env.portkey_prompt_id
  let portkey_api_key := env.portkey_api_key
  match pd gcs_source_uri gcs_destination_uri portkey_prompt_id with
  | .ok result =>
    { configErrorReported := false
      pipelineArgs := some (gcs_source_uri, gcs_destination_uri, portkey_prompt_id)
      clientApiKey := portkey_api_key
      printedResult := some result
      errorLogged := false
      exitCode := 0 }
  | .error _ =>
    { configErrorReported := false
      pipelineArgs := some (gcs_source_uri, gcs_destination_uri, portkey_prompt_id)
      clientApiKey := portkey_api_key
      printedResult := none
      errorLogged := true
      exitCode := 0 }

/-- The Combined Text a list of page texts should produce: each text followed
by a newline, concatenated in order. -/
def joinTexts (ts : List String) : String := ts.foldr (fun t acc => t ++ "\n" ++ acc) ""

/-- A well-formed page response carrying text `t`: its `fullTextAnnotation`
lookup succeeds and that object's `text` field is the string `t`. -/
def wellFormedPage (p : Json) (t : String) : Prop :=
  ∃ a, pyGetItem p "fullTextAnnotation" = .ok a ∧ pyGetItem a "text" = .ok (Json.str t)

/-- A well-formed OCR Output Blob whose pages carry the texts `ts`: its bytes
decode as UTF-8, parse as JSON, the payload's `responses` entry iterates to
a list of pages, and the pages pair up with `ts`. -/
def blobTexts (b : Blob) (ts : List String) : Prop :=
  ∃ s v r ps, utf8DecodeStr b.bytes = .ok s ∧ json_loads s = .ok v ∧
    pyGetItem v "responses" = .ok r ∧ pyIter r = .ok ps ∧
    List.Forall₂ wellFormedPage ps ts

/-- A malformed OCR Output Blob in the sense of the extraction error policy:
its payload fails UTF-8 decoding, or is not valid JSON, or contains a page
object lacking the `fullTextAnnotation` key. -/
def badBlob (b : Blob) : Prop :=
  (∀ s, utf8DecodeStr b.bytes ≠ .ok s) ∨
  (∃ s, utf8DecodeStr b.bytes = .ok s ∧ ∀ v, json_loads s ≠ .ok v) ∨
  (∃ s v r ps, utf8DecodeStr b.bytes = .ok s ∧ json_loads s = .ok v ∧
    pyGetItem v "responses" = .ok r ∧ pyIter r = .ok ps ∧
    ∃ p ∈ ps, ∃ fs, p = Json.obj fs ∧ lookupField fs "fullTextAnnotation" = none)

/-- Concrete OCR payload whose single page carries the text "Page1". -/
def payloadPage1 : String :=
  "\x7b\"responses\":[\x7b\"fullTextAnnotation\":\x7b\"text\":\"Page1\"\x7d\x7d]\x7d"

/-- Concrete OCR payload whose single page carries the text "Page2". -/
def payloadPage2 : String :=
  "\x7b\"responses\":[\x7b\"fullTextAnnotation\":\x7b\"text\":\"Page2\"\x7d\x7d]\x7d"

/-- Output blob holding `payloadPage1`. -/
def blobPage1 : Blob := ⟨"output-1-to-1.json", utf8Encode payloadPage1⟩

/-- Output blob holding `payloadPage2`. -/
def blobPage2 : Blob := ⟨"output-2-to-2.json", utf8Encode payloadPage2⟩

/-- The decoded page object of `payloadPage1`. -/
def pageJson1 : Json := Json.obj [("fullTextAnnotation", Json.obj [("text", Json.str "Page1")])]

/-- The decoded page object of `payloadPage2`. -/
def pageJson2 : Json := Json.obj [("fullTextAnnotation", Json.obj [("text", Json.str "Page2")])]

/-- Output blob whose single page is an empty object: no `fullTextAnnotation`
key (a blank page). -/
def blobMissingAnno : Blob := ⟨"output-blank.json", utf8Encode "\x7b\"responses\":[\x7b\x7d]\x7d"⟩

/-- Output blob whose bytes are not valid UTF-8 (a lone 0xFF byte). -/
def blobBadUtf8 : Blob := ⟨"output-corrupt.json", [0xFF]⟩

/-- Clients whose OCR step yields no blobs and whose gateway call fails. -/
def clGatewayDown : ExternalClients :=
  ⟨fun _ _ => .ok [], fun _ _ => .error (.gatewayError "portkey unreachable")⟩

/-- A pipeline run that fails (stands for `processor.process_document` ending
in a raised exception). -/
def pdFailing : Option String → Option String → Option String → Except PipelineError Json :=
  fun _ _ _ => .error (.gatewayError "portkey unreachable")

/-- A pipeline run that succeeds with the record `null`. -/
def pdSucceeding : Option String → Option String → Option String → Except PipelineError Json :=
  fun _ _ _ => .ok Json.null

/-- Environment with all four settings present. -/
def envAllSet : Env := ⟨some "gs://bucket/out/", some "gs://bucket/in.pdf", some "pp-extract", some "pk-key"⟩

/-- Environment with all four settings absent. -/
def envAllMissing : Env := ⟨none, none, none, none⟩

theorem string_data_append (a b : String) : (a ++ b).data = a.data ++ b.data := rfl

theorem string_eq_of_data {a b : String} (h : a.data = b.data) : a = b := by
  cases a; cases b; cases h; rfl

theorem string_append_assoc (a b c : String) : a ++ b ++ c = a ++ (b ++ c) := by
  apply string_eq_of_data
  simp only [string_data_append, List.append_assoc]

theorem joinTexts_nil : joinTexts [] = "" := rfl

theorem joinTexts_cons (t : String) (ts : List String) :
    joinTexts (t :: ts) = t ++ "\n" ++ joinTexts ts := rfl

theorem joinTexts_append (ts us : List String) :
    joinTexts (ts ++ us) = joinTexts ts ++ joinTexts us := by
  induction ts with
  | nil => simp only [List.nil_append, joinTexts_nil, String.empty_append]
  | cons t ts ih =>
    simp only [List.cons_append, joinTexts_cons, ih, string_append_assoc]

theorem joinTexts_cons_ne_empty (t : String) (ts : List String) :
    joinTexts (t :: ts) ≠ "" := by
  intro h
  have hd := congrArg String.data h
  rw [joinTexts_cons] at hd
  simp only [string_data_append] at hd
  simp at hd

theorem json_loads_error_doc (s : String) (e : JSONDecodeError)
    (h : json_loads s = .error e) : e.doc = s := by
  unfold json_loads at h
  split at h
  · cases h; rfl
  · split at h
    · cases h
    · cases h; rfl

example : json_loads "\x7b\"a\":1\x7d" = .ok (Json.obj [("a", Json.num 1 0)]) := by rfl
example : json_loads " [1, 2.5, \"x\", true, null] " =
    .ok (Json.arr [Json.num 1 0, Json.num 25 (-1), Json.str "x", Json.bool true, Json.null]) := by
  rfl
example : json_loads "not json" = .error ⟨"Expecting value", "not json"⟩ := by rfl
example : json_loads "" = .error ⟨"Expecting value", ""⟩ := by rfl
example : get_combined_extract_text [blobPage1] = .ok "Page1\n" := by rfl
example : parse_and_validate_response (mkResp "```json\n\x7b\"a\":1\x7d\n```") =
    .ok (Json.obj [("a", Json.num 1 0)]) := by rfl
example : parse_and_validate_response (mkResp "```json\n\x7b\"a\":1\x7d") =
    .error (.jsonDecodeError ⟨"Expecting value", "```json\n\x7b\"a\":1\x7d"⟩) := by rfl

theorem extractPages_wf (ps : List Json) (ts : List String)
    (h : List.Forall₂ wellFormedPage ps ts) :
    ∀ acc, extractPages acc ps = .ok (acc ++ joinTexts ts) := by
  induction h with
  | nil =>
    intro acc
    simp only [extractPages, joinTexts_nil, String.append_empty]
  | @cons p t ps' ts' hpt _ ih =>
    intro acc
    obtain ⟨a, ha, ht⟩ := hpt
    simp only [extractPages, ha, ht, ih, joinTexts_cons, string_append_assoc]

theorem processBlob_wf (b : Blob) (ts : List String) (h : blobTexts b ts) :
    ∀ acc, processBlob acc b = .ok (acc ++ joinTexts ts) := by
  intro acc
  obtain ⟨s, v, r, ps, hs, hv, hr, hps, hpages⟩ := h
  unfold processBlob
  simp only [hs, hv, hr, hps]
  exact extractPages_wf ps ts hpages acc

theorem combineGo_wf (bs : List Blob) (tss : List (List String))
    (h : List.Forall₂ blobTexts bs tss) :
    ∀ acc, combineGo acc bs = .ok (acc ++ joinTexts tss.flatten) := by
  induction h with
  | nil =>
    intro acc
    simp only [combineGo, List.flatten_nil, joinTexts_nil, String.append_empty]
  | @cons b ts bs' tss' hb _ ih =>
    intro acc
    simp only [combineGo, processBlob_wf b ts hb acc, ih, List.flatten_cons, joinTexts_append,
      string_append_assoc]

theorem get_combined_extract_text_wf (bs : List Blob) (tss : List (List String))
    (h : List.Forall₂ blobTexts bs tss) :
    get_combined_extract_text bs = .ok (joinTexts tss.flatten) := by
  unfold get_combined_extract_text
  rw [combineGo_wf bs tss h "", String.empty_append]

/-- C1: for every list of well-formed OCR Output Blobs (payloads valid UTF-8
and valid JSON, every page carrying `fullTextAnnotation.text`), the Combined
Text is exactly each page's text followed by a newline, concatenated in blob
order and then page order within each blob's `responses` list. -/
theorem combined_text_concatenation (bs : List Blob) (tss : List (List String))
    (h : List.Forall₂ blobTexts bs tss) :
    get_combined_extract_text bs = .ok (joinTexts tss.flatten) :=
  get_combined_extract_text_wf bs tss h

theorem blobTexts_blobPage1 : blobTexts blobPage1 ["Page1"] :=
  ⟨payloadPage1, Json.obj [("responses", Json.arr [pageJson1])], Json.arr [pageJson1],
    [pageJson1], rfl, rfl, rfl, rfl,
    List.Forall₂.cons ⟨Json.obj [("text", Json.str "Page1")], rfl, rfl⟩ List.Forall₂.nil⟩

theorem blobTexts_blobPage2 : blobTexts blobPage2 ["Page2"] :=
  ⟨payloadPage2, Json.obj [("responses", Json.arr [pageJson2])], Json.arr [pageJson2],
    [pageJson2], rfl, rfl, rfl, rfl,
    List.Forall₂.cons ⟨Json.obj [("text", Json.str "Page2")], rfl, rfl⟩ List.Forall₂.nil⟩

/-- C1 witness: the two concrete blobs of the claim, whose payloads carry
"Page1" and "Page2", combine to "Page1\nPage2\n". -/
theorem combined_text_concatenation_witness :
    List.Forall₂ blobTexts [blobPage1, blobPage2] [["Page1"], ["Page2"]] ∧
    get_combined_extract_text [blobPage1, blobPage2] = .ok "Page1\nPage2\n" := by
  have hf : List.Forall₂ blobTexts [blobPage1, blobPage2] [["Page1"], ["Page2"]] :=
    List.Forall₂.cons blobTexts_blobPage1 (List.Forall₂.cons blobTexts_blobPage2 List.Forall₂.nil)
  refine ⟨hf, ?_⟩
  rw [combined_text_concatenation [blobPage1, blobPage2] [["Page1"], ["Page2"]] hf]
  rfl

/-- C7: for well-formed blob lists, the Combined Text is empty iff the blob
list is empty or every blob's `responses` list is empty (equivalently, every
blob's page-text list is empty; each present page contributes its text plus
a newline, so even an empty text makes the result non-empty); and a blob
whose page lacks the `fullTextAnnotation` key raises a `KeyError` instead of
contributing empty text. -/
theorem combined_text_empty_iff :
    (∀ (bs : List Blob) (tss : List (List String)), List.Forall₂ blobTexts bs tss →
      (get_combined_extract_text bs = .ok "" ↔ (bs = [] ∨ ∀ ts ∈ tss, ts = []))) ∧
    get_combined_extract_text [blobMissingAnno] =
      .error (PipelineError.keyError "fullTextAnnotation") := by
  constructor
  · intro bs tss h
    rw [get_combined_extract_text_wf bs tss h]
    constructor
    · intro hok
      have hj : joinTexts tss.flatten = "" := by
        simpa using hok
      rcases hf : tss.flatten with _ | ⟨t, ts⟩
      · exact Or.inr (List.flatten_eq_nil_iff.mp hf)
      · rw [hf] at hj
        exact absurd hj (joinTexts_cons_ne_empty t ts)
    · intro hempty
      have hflat : tss.flatten = [] := by
        rcases hempty with hbs | hall
        · subst hbs
          have : tss = [] := List.forall₂_nil_left_iff.mp h
          simp [this]
        · exact List.flatten_eq_nil_iff.mpr hall
      rw [hflat, joinTexts_nil]
  · rfl

/-- C7 witness: instantiating the iff at the concrete one-blob list carrying
the single page text "Page1", whose Combined Text is therefore not empty. -/
theorem combined_text_empty_iff_witness :
    get_combined_extract_text [blobPage1] ≠ .ok "" := by
  intro hok
  have h := (combined_text_empty_iff.1 [blobPage1] [["Page1"]]
    (List.Forall₂.cons blobTexts_blobPage1 List.Forall₂.nil)).mp hok
  rcases h with hnil | hall
  · cases hnil
  · exact absurd (hall ["Page1"] (by simp)) (by simp)

theorem extractPages_cons_cases (q : Json) (rest : List Json) (acc : String) :
    (∃ e, extractPages acc (q :: rest) = .error e) ∨
    (∃ acc2, extractPages acc (q :: rest) = extractPages acc2 rest) := by
  rcases hq : pyGetItem q "fullTextAnnotation" with e | anno
  · exact Or.inl ⟨e, by simp only [extractPages, hq]⟩
  · rcases ht : pyGetItem anno "text" with e | t
    · exact Or.inl ⟨e, by simp only [extractPages, hq, ht]⟩
    · cases t with
      | str txt => exact Or.inr ⟨acc ++ (txt ++ "\n"), by simp only [extractPages, hq, ht]⟩
      | null => exact Or.inl ⟨PipelineError.typeError "can only concatenate str to str", by simp only [extractPages, hq, ht]⟩
      | bool b => exact Or.inl ⟨PipelineError.typeError "can only concatenate str to str", by simp only [extractPages, hq, ht]⟩
      | num m ex => exact Or.inl ⟨PipelineError.typeError "can only concatenate str to str", by simp only [extractPages, hq, ht]⟩
      | nan => exact Or.inl ⟨PipelineError.typeError "can only concatenate str to str", by simp only [extractPages, hq, ht]⟩
      | inf ng => exact Or.inl ⟨PipelineError.typeError "can only concatenate str to str", by simp only [extractPages, hq, ht]⟩
      | arr el => exact Or.inl ⟨PipelineError.typeError "can only concatenate str to str", by simp only [extractPages, hq, ht]⟩
      | obj fl => exact Or.inl ⟨PipelineError.typeError "can only concatenate str to str", by simp only [extractPages, hq, ht]⟩

theorem extractPages_error_of_missing (ps : List Json)
    (h : ∃ p ∈ ps, ∃ fs, p = Json.obj fs ∧ lookupField fs "fullTextAnnotation" = none) :
    ∀ acc, ∃ e, extractPages acc ps = .error e := by
  induction ps with
  | nil =>
    obtain ⟨p, hp, _⟩ := h
    cases hp
  | cons q rest ih =>
    intro acc
    obtain ⟨p, hp, fs, hpeq, hlk⟩ := h
    rcases List.mem_cons.mp hp with heq | hmem
    · subst heq; subst hpeq
      exact ⟨PipelineError.keyError "fullTextAnnotation",
        by simp only [extractPages, pyGetItem, hlk]⟩
    · rcases extractPages_cons_cases q rest acc with ⟨e, he⟩ | ⟨acc2, hstep⟩
      · exact ⟨e, he⟩
      · obtain ⟨e, he⟩ := ih ⟨p, hmem, fs, hpeq, hlk⟩ acc2
        exact ⟨e, by rw [hstep, he]⟩

theorem processBlob_error_of_bad (b : Blob) (hb : badBlob b) (acc : String) :
    ∃ e, processBlob acc b = .error e := by
  unfold processBlob
  rcases hb with h1 | ⟨s, hs, h2⟩ | ⟨s, v, r, ps, hs, hv, hr, hps, hbadpage⟩
  · rcases hd : utf8DecodeStr b.bytes with e | s
    · exact ⟨e, rfl⟩
    · exact absurd hd (h1 s)
  · rcases hj : json_loads s with e | v
    · exact ⟨PipelineError.jsonDecodeError e, by simp only [hs, hj]⟩
    · exact absurd hj (h2 v)
  · simp only [hs, hv, hr, hps]
    exact extractPages_error_of_missing ps hbadpage acc

theorem combineGo_error_of_bad :
    ∀ (bs : List Blob), (∃ b ∈ bs, badBlob b) → ∀ acc, ∃ e, combineGo acc bs = .error e := by
  intro bs
  induction bs with
  | nil =>
    rintro ⟨b, hb, _⟩
    cases hb
  | cons q rest ih =>
    rintro ⟨b, hb, hbad⟩ acc
    rcases List.mem_cons.mp hb with heq | hmem
    · subst heq
      obtain ⟨e, he⟩ := processBlob_error_of_bad b hbad acc
      exact ⟨e, by simp only [combineGo, he]⟩
    · rcases hq : processBlob acc q with e | acc2
      · exact ⟨e, by simp only [combineGo, hq]⟩
      · obtain ⟨e, he⟩ := ih ⟨b, hmem, hbad⟩ acc2
        exact ⟨e, by simp only [combineGo, hq, he]⟩

/-- C8: if any blob in the list is malformed — its payload fails UTF-8
decoding, is not valid JSON, or contains a page lacking
`fullTextAnnotation` — then text combination raises (an `Except.error`),
so no partial Combined Text accumulated from earlier blobs or pages is
returned to the caller. -/
theorem bad_blob_aborts_extraction (bs : List Blob) (h : ∃ b ∈ bs, badBlob b) :
    ∃ e, get_combined_extract_text bs = .error e :=
  combineGo_error_of_bad bs h ""

/-- C8 witness: a well-formed blob followed by a blob of invalid UTF-8; the
extraction errors rather than returning the first blob's text. -/
theorem bad_blob_aborts_extraction_witness :
    (∃ b ∈ [blobPage1, blobBadUtf8], badBlob b) ∧
    ∃ e, get_combined_extract_text [blobPage1, blobBadUtf8] = .error e := by
  have hbad : badBlob blobBadUtf8 := by
    left
    intro s hcon
    have hval : utf8DecodeStr blobBadUtf8.bytes =
        .error (.unicodeDecodeError "utf-8 codec cannot decode") := rfl
    rw [hval] at hcon
    exact Except.noConfusion hcon
  have hmem : ∃ b ∈ [blobPage1, blobBadUtf8], badBlob b :=
    ⟨blobBadUtf8, by simp, hbad⟩
  exact ⟨hmem, bad_blob_aborts_extraction [blobPage1, blobBadUtf8] hmem⟩

/-- C9: `process_document` executes OCR submission, text combination, the
completion request and response parsing in strict sequence.  The trace of
steps that start is always a prefix of the pipeline order (no retry, no
reorder, no skipped step); on success the trace is the full sequence and
the returned value is exactly what response parsing produced from the
gateway's completion; a failure at any step yields that step's error with
the trace stopping right there, so the first failure propagates and there
is no partial-success result. -/
theorem pipeline_strict_sequence (cl : ExternalClients) (s d p : String) :
    (process_document_trace cl s d p).2 = process_document cl s d p ∧
    (∃ u, (process_document_trace cl s d p).1 ++ u = pipelineSteps) ∧
    (∀ j, (process_document_trace cl s d p).2 = .ok j →
      (process_document_trace cl s d p).1 = pipelineSteps ∧
      ∃ blobs text resp, cl.async_detect_document s d = .ok blobs ∧
        get_combined_extract_text blobs = .ok text ∧
        cl.send_to_portkey p text = .ok resp ∧
        parse_and_validate_response resp = .ok j) ∧
    (∀ e, cl.async_detect_document s d = .error e →
      process_document_trace cl s d p = ([Step.ocr], .error e)) ∧
    (∀ blobs e, cl.async_detect_document s d = .ok blobs →
      get_combined_extract_text blobs = .error e →
      process_document_trace cl s d p = ([Step.ocr, Step.extract], .error e)) ∧
    (∀ blobs text e, cl.async_detect_document s d = .ok blobs →
      get_combined_extract_text blobs = .ok text →
      cl.send_to_portkey p text = .error e →
      process_document_trace cl s d p = ([Step.ocr, Step.extract, Step.gateway], .error e)) ∧
    (∀ blobs text resp e, cl.async_detect_document s d = .ok blobs →
      get_combined_extract_text blobs = .ok text →
      cl.send_to_portkey p text = .ok resp →
      parse_and_validate_response resp = .error e →
      process_document_trace cl s d p = (pipelineSteps, .error e)) := by
  rcases h1 : cl.async_detect_document s d with e1 | blobs
  case error =>
    refine ⟨?_, ?_, ?_, ?_, ?_, ?_, ?_⟩
    · simp only [process_document_trace, process_document, h1]
    · exact ⟨[Step.extract, Step.gateway, Step.parse],
        by simp only [process_document_trace, h1]; rfl⟩
    · intro j hj
      simp only [process_document_trace, h1] at hj
      cases hj
    · intro e he
      cases he
      simp only [process_document_trace, h1]
    · intro blobs e hb
      cases hb
    · intro blobs text e hb
      cases hb
    · intro blobs text resp e hb
      cases hb
  case ok =>
    rcases h2 : get_combined_extract_text blobs with e2 | text
    case error =>
      refine ⟨?_, ?_, ?_, ?_, ?_, ?_, ?_⟩
      · simp only [process_document_trace, process_document, h1, h2]
      · exact ⟨[Step.gateway, Step.parse],
          by simp only [process_document_trace, h1, h2]; rfl⟩
      · intro j hj
        simp only [process_document_trace, h1, h2] at hj
        cases hj
      · intro e he
        cases he
      · intro blobs' e hb hx
        cases hb
        rw [h2] at hx
        cases hx
        simp only [process_document_trace, h1, h2]
      · intro blobs' text e hb hx
        cases hb
        rw [h2] at hx
        cases hx
      · intro blobs' text resp e hb hx
        cases hb
        rw [h2] at hx
        cases hx
    case ok =>
      rcases h3 : cl.send_to_portkey p text with e3 | resp
      case error =>
        refine ⟨?_, ?_, ?_, ?_, ?_, ?_, ?_⟩
        · simp only [process_document_trace, process_document, h1, h2, h3]
        · exact ⟨[Step.parse], by simp only [process_document_trace, h1, h2, h3]; rfl⟩
        · intro j hj
          simp only [process_document_trace, h1, h2, h3] at hj
          cases hj
        · intro e he
          cases he
        · intro blobs' e hb hx
          cases hb
          rw [h2] at hx
          cases hx
        · intro blobs' text' e hb hx hs
          cases hb
          rw [h2] at hx
          cases hx
          rw [h3] at hs
          cases hs
          simp only [process_document_trace, h1, h2, h3]
        · intro blobs' text' resp e hb hx hs
          cases hb
          rw [h2] at hx
          cases hx
          rw [h3] at hs
          cases hs
      case ok =>
        rcases h4 : parse_and_validate_response resp with e4 | j0
        case error =>
          refine ⟨?_, ?_, ?_, ?_, ?_, ?_, ?_⟩
          · simp only [process_document_trace, process_document, h1, h2, h3, h4]
          · exact ⟨[], by simp only [process_document_trace, h1, h2, h3, h4]; rfl⟩
          · intro j hj
            simp only [process_document_trace, h1, h2, h3, h4] at hj
            cases hj
          · intro e he
            cases he
          · intro blobs' e hb hx
            cases hb
            rw [h2] at hx
            cases hx
          · intro blobs' text' e hb hx hs
            cases hb
            rw [h2] at hx
            cases hx
            rw [h3] at hs
            cases hs
          · intro blobs' text' resp' e hb hx hs hp
            cases hb
            rw [h2] at hx
            cases hx
            rw [h3] at hs
            cases hs
            rw [h4] at hp
            cases hp
            simp only [process_document_trace, h1, h2, h3, h4]
        case ok =>
          refine ⟨?_, ?_, ?_, ?_, ?_, ?_, ?_⟩
          · simp only [process_document_trace, process_document, h1, h2, h3, h4]
          · exact ⟨[], by simp only [process_document_trace, h1, h2, h3, h4]; rfl⟩
          · intro j hj
            simp only [process_document_trace, h1, h2, h3, h4] at hj
            cases hj
            exact ⟨by simp only [process_document_trace, h1, h2, h3, h4], blobs, text, resp,
              rfl, h2, h3, h4⟩
          · intro e he
            cases he
          · intro blobs' e hb hx
            cases hb
            rw [h2] at hx
            cases hx
          · intro blobs' text' e hb hx hs
            cases hb
            rw [h2] at hx
            cases hx
            rw [h3] at hs
            cases hs
          · intro blobs' text' resp' e hb hx hs hp
            cases hb
            rw [h2] at hx
            cases hx
            rw [h3] at hs
            cases hs
            rw [h4] at hp
            cases hp

/-- C9 witness: with clients whose OCR step yields no blobs and whose gateway
is down, the pipeline runs OCR then extraction then the gateway call, stops
there with the gateway error, and the parse step never starts. -/
theorem pipeline_strict_sequence_witness :
    process_document_trace clGatewayDown "gs://in" "gs://out" "pp-extract" =
      ([Step.ocr, Step.extract, Step.gateway], .error (.gatewayError "portkey unreachable")) :=
  (pipeline_strict_sequence clGatewayDown "gs://in" "gs://out" "pp-extract").2.2.2.2.2.1
    [] "" (.gatewayError "portkey unreachable") rfl rfl rfl

/-- C4: whenever the gateway completion's first-choice content, after
fence-stripping, is not valid JSON, response parsing raises the parse error
to the caller (the source's `except ValidationError` does not catch a
`JSONDecodeError`), and the error's `doc` attribute carries the offending
content for diagnostics. -/
theorem parse_error_surfaces_content (r : CompletionResponse) (choice : Choice)
    (rest : List Choice) (e : JSONDecodeError)
    (hc : r.choices = choice :: rest)
    (he : json_loads (fence_strip choice.message.content) = .error e) :
    parse_and_validate_response r = .error (.jsonDecodeError e) ∧
    e.doc = fence_strip choice.message.content := by
  constructor
  · unfold parse_and_validate_response
    rw [hc]
    simp only [he]
  · exact json_loads_error_doc _ e he

/-- C4 witness: the unfenced gateway content "not json" raises a parse error
whose `doc` is the content itself. -/
theorem parse_error_surfaces_content_witness :
    parse_and_validate_response (mkResp "not json") =
      .error (.jsonDecodeError ⟨"Expecting value", "not json"⟩) ∧
    JSONDecodeError.doc ⟨"Expecting value", "not json"⟩ = fence_strip "not json" :=
  parse_error_surfaces_content (mkResp "not json") ⟨⟨"not json"⟩⟩ []
    ⟨"Expecting value", "not json"⟩ rfl (by rfl)

/-- C5: when the content starts with the open-fence marker but does not end
with the close-fence marker, or vice versa, fence-stripping leaves the
content unmodified and response parsing attempts to parse it as-is. -/
theorem mismatched_fence_parses_as_is (c : String)
    (h : pyStartswith c "```json" ≠ pyEndswith c "```") :
    fence_strip c = c ∧
    parse_and_validate_response (mkResp c) =
      (json_loads c).mapError PipelineError.jsonDecodeError := by
  have hcond : (pyStartswith c "```json" && pyEndswith c "```") = false := by
    cases hx : pyStartswith c "```json" <;> cases hy : pyEndswith c "```" <;> simp_all
  have hfs : fence_strip c = c := by
    unfold fence_strip
    rw [hcond]
    rfl
  refine ⟨hfs, ?_⟩
  unfold parse_and_validate_response mkResp
  simp only [hfs]
  rcases json_loads c with e | v <;> rfl

/-- C5 witness: the open-fenced, unclosed content is left unmodified and
raises a parse error instead of silently succeeding. -/
theorem mismatched_fence_parses_as_is_witness :
    (pyStartswith "```json\n\x7b\"a\":1\x7d" "```json" ≠
      pyEndswith "```json\n\x7b\"a\":1\x7d" "```") ∧
    fence_strip "```json\n\x7b\"a\":1\x7d" = "```json\n\x7b\"a\":1\x7d" ∧
    parse_and_validate_response (mkResp "```json\n\x7b\"a\":1\x7d") =
      .error (.jsonDecodeError ⟨"Expecting value", "```json\n\x7b\"a\":1\x7d"⟩) := by
  have hmis : pyStartswith "```json\n\x7b\"a\":1\x7d" "```json" ≠
      pyEndswith "```json\n\x7b\"a\":1\x7d" "```" := by decide
  have h := mismatched_fence_parses_as_is "```json\n\x7b\"a\":1\x7d" hmis
  exact ⟨hmis, h.1, by rw [h.2]; rfl⟩

/-- C6: response parsing is invariant under json-labelled fencing and
idempotent on unfenced valid JSON: the fenced and the unfenced form of the
same object parse to the same JSON value. -/
theorem fence_roundtrip_idempotent :
    parse_and_validate_response (mkResp "```json\n\x7b\"a\":1\x7d\n```") =
      .ok (Json.obj [("a", Json.num 1 0)]) ∧
    parse_and_validate_response (mkResp "\x7b\"a\":1\x7d") =
      .ok (Json.obj [("a", Json.num 1 0)]) :=
  ⟨rfl, rfl⟩

/-- C10: when the content both starts with the open-fence marker and ends
with the close-fence marker, fence-stripping removes exactly the first 7 and
the last 3 characters and then strips surrounding whitespace from the
remainder, which is what gets parsed. -/
theorem fence_strip_slice_and_strip (c : String)
    (h1 : pyStartswith c "```json" = true) (h2 : pyEndswith c "```" = true) :
    fence_strip c = pyStrip (String.mk ((c.data.drop 7).take (c.data.length - 10))) ∧
    parse_and_validate_response (mkResp c) =
      (json_loads (pyStrip (String.mk ((c.data.drop 7).take (c.data.length - 10))))).mapError
        PipelineError.jsonDecodeError := by
  have hslice : pySliceDropEnds c 7 3 =
      String.mk ((c.data.drop 7).take (c.data.length - 10)) := by
    unfold pySliceDropEnds
    have hsub : c.data.length - 3 - 7 = c.data.length - 10 := by omega
    rw [List.drop_take, hsub]
  have hfs : fence_strip c =
      pyStrip (String.mk ((c.data.drop 7).take (c.data.length - 10))) := by
    unfold fence_strip
    rw [h1, h2, hslice]
    rfl
  refine ⟨hfs, ?_⟩
  unfold parse_and_validate_response mkResp
  simp only [hfs]
  rcases json_loads (pyStrip (String.mk ((c.data.drop 7).take (c.data.length - 10)))) with e | v <;>
    rfl

/-- C10 witness: fenced content with extra whitespace inside the fences still
parses successfully after the slice-and-strip. -/
theorem fence_strip_slice_and_strip_witness :
    pyStartswith "```json\n  \x7b\"a\":1\x7d  \n```" "```json" = true ∧
    pyEndswith "```json\n  \x7b\"a\":1\x7d  \n```" "```" = true ∧
    fence_strip "```json\n  \x7b\"a\":1\x7d  \n```" = "\x7b\"a\":1\x7d" ∧
    parse_and_validate_response (mkResp "```json\n  \x7b\"a\":1\x7d  \n```") =
      .ok (Json.obj [("a", Json.num 1 0)]) := by
  have h := fence_strip_slice_and_strip "```json\n  \x7b\"a\":1\x7d  \n```" (by decide) (by decide)
  refine ⟨by decide, by decide, ?_, ?_⟩
  · rw [h.1]
    rfl
  · rw [h.2]
    rfl

/-- C2 counterexample: a run that fails at the gateway step logs an error and
prints nothing, but the process exit code is 0 — identical to the exit code
of a successful run, not a distinct non-zero code (main.py lines 175-176
swallow the exception). -/
theorem main_failure_exit_code_counterexample :
    (main_run pdFailing envAllSet).errorLogged = true ∧
    (main_run pdFailing envAllSet).printedResult = none ∧
    (main_run pdFailing envAllSet).exitCode = 0 ∧
    (main_run pdSucceeding envAllSet).exitCode = 0 :=
  ⟨rfl, rfl, rfl, rfl⟩

/-- C2 as amended: for every pipeline run that fails at any step, the process
logs an error and writes no result to standard output, but it exits with
code 0 — the same exit code as a successful run — because `main` catches the
exception and only logs it. -/
theorem main_failure_logs_and_exits_zero
    (pd : Option String → Option String → Option String → Except PipelineError Json)
    (env : Env) (e : PipelineError)
    (h : pd env.input_document_path env.output_document_path env.portkey_prompt_id = .error e) :
    (main_run pd env).errorLogged = true ∧
    (main_run pd env).printedResult = none ∧
    (main_run pd env).exitCode = 0 := by
  refine ⟨?_, ?_, ?_⟩
  · unfold main_run
    simp only [h]
  · unfold main_run
    simp only [h]
  · unfold main_run
    simp only [h]

/-- C2 witness: the amended statement instantiated at a concrete
gateway-failing run. -/
theorem main_failure_logs_and_exits_zero_witness :
    (main_run pdFailing envAllSet).errorLogged = true ∧
    (main_run pdFailing envAllSet).printedResult = none ∧
    (main_run pdFailing envAllSet).exitCode = 0 :=
  main_failure_logs_and_exits_zero pdFailing envAllSet (.gatewayError "portkey unreachable") rfl

/-- C3 counterexample: with all four settings absent from the environment,
`main` reports no configuration error and still invokes the pipeline,
handing the absent values straight to `process_document` and the absent
credential to the Portkey client — the pipeline is not stopped before its
steps run. -/
theorem main_missing_config_counterexample :
    (main_run pdSucceeding envAllMissing).configErrorReported = false ∧
    (main_run pdSucceeding envAllMissing).pipelineArgs = some (none, none, none) ∧
    (main_run pdSucceeding envAllMissing).clientApiKey = none :=
  ⟨rfl, rfl, rfl⟩

/-- C3 as amended: `main` never validates the four settings.  No
configuration error is ever reported, and the pipeline is always invoked
with whatever values — present or absent — the environment provides, the
credential likewise passed unchecked to the client constructor. -/
theorem main_no_config_validation
    (pd : Option String → Option String → Option String → Except PipelineError Json)
    (env : Env) :
    (main_run pd env).configErrorReported = false ∧
    (main_run pd env).pipelineArgs =
      some (env.input_document_path, env.output_document_path, env.portkey_prompt_id) ∧
    (main_run pd env).clientApiKey = env.portkey_api_key := by
  rcases hp : pd env.input_document_path env.output_document_path env.portkey_prompt_id
      with e | j <;>
    · unfold main_run
      simp only [hp]
      exact ⟨trivial, trivial, trivial⟩
